import Mathlib

/-!
Verification development for the `lebron_bot` repository.

We shallowly embed the play-by-play domain model of
`src/nba/models/game_model.py` and the player-name index of
`src/nba/parser/player_parser.py`, and prove the specified properties
of the derived-query surface (importance scoring, event filtering,
clutch-time detection, assisted-shot projection, team/player lookups,
duration-parse degradation, and name-index behaviour).

Conventions of the embedding:
  * Python `Optional[T]` fields become `Option T`.
  * Python attributes that exist only on some event variants
    (`assist_person_id`, `shot_result`, ... accessed via `hasattr`/`getattr`)
    are flattened into the base record as `Option` fields; `hasattr`
    corresponds to `isSome`.
  * Python `int(...)` string conversion is the partial function `pyInt?`;
    an operation of the source that can raise `ValueError` through it is
    embedded as an `Option`-returning function, `none` marking the raise.
  * Python `dict` is an association list with front insertion and
    first-match lookup, which models assignment/overwrite and `get`.
-/

namespace LebronBot

/-- Digits of a Python decimal literal to a number; `none` when the list is
empty or holds a non-digit. -/
def digitsToNat? (l : List Char) : Option Nat :=
  if l.isEmpty then none
  else if l.all Char.isDigit then
    some (l.foldl (fun a c => a * 10 + (c.toNat - 48)) 0)
  else none

/-- Strip whitespace from both ends of a character list. -/
def trimChars (l : List Char) : List Char :=
  ((l.dropWhile Char.isWhitespace).reverse.dropWhile Char.isWhitespace).reverse

/-- Embedding of Python `int(s)` on strings: strip surrounding whitespace,
optional sign, then decimal digits; `none` models the `ValueError` raise. -/
def pyInt? (s : String) : Option Int :=
  match trimChars s.toList with
  | '-' :: rest => (digitsToNat? rest).map (fun n => -(n : Int))
  | '+' :: rest => (digitsToNat? rest).map (fun n => (n : Int))
  | l => (digitsToNat? l).map (fun n => (n : Int))

/-- Embedding of Python `s.lower()` (ASCII case folding). -/
def lowerStr (s : String) : String :=
  String.mk (s.toList.map Char.toLower)

/-- Embedding of Python `":" in s`. -/
def containsColon (s : String) : Bool :=
  s.toList.contains ':'

/-- Embedding of Python `s.split(":")[0]`: the characters before the first
colon (the whole string when there is no colon). -/
def beforeColon (s : String) : String :=
  String.mk (s.toList.takeWhile (fun c => c ≠ ':'))

/-- Python truthiness of an `Optional[str]` value: `None` and `""` are falsy. -/
def pyTruthy : Option String → Bool
  | none => false
  | some s => s ≠ ""

/-- Embedding of `BaseEvent` (game_model.py): the common event record, with
the shot-variant fields (`shot_result`, `assist_person_id`, `area`,
`shot_distance`) flattened in as optional fields, matching the source's
`hasattr`/`getattr` probing over `extra='allow'` models. -/
structure BaseEvent where
  action_number : Int
  clock : String
  period : Int
  team_id : Option Int := none
  action_type : String
  sub_type : Option String := none
  description : String := ""
  person_id : Option Int := none
  player_name : Option String := none
  x_legacy : Option Int := none
  y_legacy : Option Int := none
  score_home : Option String := none
  score_away : Option String := none
  shot_result : Option String := none
  assist_person_id : Option Int := none
  area : Option String := none
  shot_distance : Option ℚ := none
deriving Repr, DecidableEq

namespace BaseEvent

/-- The part of the clock string before the first `:`
(Python `clock.split(":")[0]`). -/
def minutePart (e : BaseEvent) : String :=
  beforeColon e.clock

/-- The action-type bonus of `calculate_importance`: +3 for
high-importance types, +2 for medium, 0 otherwise (case-insensitive). -/
def baseImportance (e : BaseEvent) : Nat :=
  if ["2pt", "3pt", "dunk", "block", "steal"].contains (lowerStr e.action_type) then 3
  else if ["rebound", "assist", "foul"].contains (lowerStr e.action_type) then 2
  else 0

/-- The clutch-time bonus step of `calculate_importance`: evaluated only
when `period >= 4` and the clock contains `:`; `none` when the minute
component fails Python `int` conversion (a raise in the source). -/
def clutchStep (e : BaseEvent) : Option Nat :=
  if e.period ≥ 4 ∧ containsColon e.clock then
    (pyInt? e.minutePart).map (fun m => if m ≤ 2 then 1 else 0)
  else some 0

/-- The close-score bonus step of `calculate_importance`: evaluated only
when both score strings are truthy; `none` when either fails `int`
conversion (a raise in the source). -/
def closeStep (e : BaseEvent) : Option Nat :=
  if pyTruthy e.score_home ∧ pyTruthy e.score_away then
    match pyInt? (e.score_home.getD ""), pyInt? (e.score_away.getD "") with
    | some h, some a => some (if (h - a).natAbs ≤ 5 then 1 else 0)
    | _, _ => none
  else some 0

/-- Embedding of `BaseEvent.calculate_importance` (game_model.py:472-497):
base bonus by action type, +1 clutch, +1 close score, capped at 5.
`none` marks the `ValueError` the source raises on an unconvertible
minute or score string. -/
def calculate_importance (e : BaseEvent) : Option Nat :=
  match e.clutchStep, e.closeStep with
  | some c1, some c2 => some (min (e.baseImportance + c1 + c2) 5)
  | _, _ => none

end BaseEvent

/-! Claim-side formula for C1, written from the spec's words, to be compared
with the embedded `calculate_importance`. -/

/-- Spec formula: base is 3 for {2pt,3pt,dunk,block,steal}, 2 for
{rebound,assist,foul} (case-insensitive), else 0. -/
def claimedBase (e : BaseEvent) : Nat :=
  if ["2pt", "3pt", "dunk", "block", "steal"].contains (lowerStr e.action_type) then 3
  else if ["rebound", "assist", "foul"].contains (lowerStr e.action_type) then 2
  else 0

/-- Spec formula: clutch is 1 when the period is at least 4 and the clock
contains `:` with integer minute component at most 2, else 0. -/
def claimedClutch (e : BaseEvent) : Nat :=
  match pyInt? e.minutePart with
  | some m => if e.period ≥ 4 ∧ containsColon e.clock ∧ m ≤ 2 then 1 else 0
  | none => 0

/-- Spec formula: close is 1 when both score strings are present with
integer values of absolute difference at most 5, else 0. -/
def claimedClose (e : BaseEvent) : Nat :=
  match e.score_home, e.score_away with
  | some h, some a =>
    match pyInt? h, pyInt? a with
    | some hv, some av => if (hv - av).natAbs ≤ 5 then 1 else 0
    | _, _ => 0
  | _, _ => 0

/-- The concrete three-point event of claim C1: period 4, clock "1:30",
scores 100-97 (margin 3). -/
def exThreePoint : BaseEvent :=
  { action_number := 1, clock := "1:30", period := 4, action_type := "3pt",
    description := "example three point shot", score_home := some "100",
    score_away := some "97", shot_result := some "Made" }

namespace BaseEvent

/-- Embedding of `BaseEvent.filter_by_team` (game_model.py:423-426):
keep events whose optional team id equals the given id. -/
def filter_by_team (events : List BaseEvent) (team_id : Int) : List BaseEvent :=
  events.filter (fun e => e.team_id = some team_id)

/-- Embedding of `BaseEvent.filter_by_player` (game_model.py:428-431):
keep events whose optional person id equals the given id. -/
def filter_by_player (events : List BaseEvent) (player_id : Int) : List BaseEvent :=
  events.filter (fun e => e.person_id = some player_id)

/-- Embedding of `BaseEvent.filter_by_period` (game_model.py:433-436):
keep events of the given period. -/
def filter_by_period (events : List BaseEvent) (period : Int) : List BaseEvent :=
  events.filter (fun e => e.period = period)

/-- The per-event test of `filter_by_clutch_time`, with Python's
short-circuit evaluation: the minute component is converted by `int`
only when `period >= 4` and the clock has a colon; `none` is the
`ValueError` raise of that conversion. -/
def clutchTest (minutes : Int) (e : BaseEvent) : Option Bool :=
  if e.period ≥ 4 ∧ containsColon e.clock then
    (pyInt? e.minutePart).map (fun m => m ≤ minutes)
  else some false

/-- Embedding of `BaseEvent.filter_by_clutch_time` (game_model.py:438-445):
the list comprehension keeping clutch-time events; `none` when some
event's minute component raises in `int`. -/
def filter_by_clutch_time (events : List BaseEvent) (minutes : Int := 2) :
    Option (List BaseEvent) :=
  match events with
  | [] => some []
  | e :: rest =>
    match clutchTest minutes e with
    | none => none
    | some b =>
      (filter_by_clutch_time rest minutes).map (fun l => if b then e :: l else l)

/-- Embedding of `BaseEvent.filter_multi` (game_model.py:447-470): apply
the provided single-predicate filters in sequence (team, player, period,
then optionally clutch time). `none` can arise only from the clutch
filter's `int` conversion. -/
def filter_multi (events : List BaseEvent) (team_id player_id period : Option Int)
    (is_clutch : Bool := false) (clutch_minutes : Int := 2) :
    Option (List BaseEvent) :=
  let f1 := match team_id with
    | some t => filter_by_team events t
    | none => events
  let f2 := match player_id with
    | some p => filter_by_player f1 p
    | none => f1
  let f3 := match period with
    | some q => filter_by_period f2 q
    | none => f2
  if is_clutch then filter_by_clutch_time f3 clutch_minutes else some f3

end BaseEvent

/-- Embedding of `PlayerInGame` (game_model.py), restricted to the fields
the derived queries read. -/
structure PlayerInGame where
  person_id : Int
  name : String
  jersey_num : String := "0"
  on_court : String := "0"
  played : String := "0"
deriving Repr, DecidableEq

/-- Embedding of `TeamInGame` (game_model.py), restricted to the fields
the derived queries read. -/
structure TeamInGame where
  team_id : Int
  team_name : String := ""
  team_tricode : String := ""
  score : Nat := 0
  players : List PlayerInGame := []
deriving Repr, DecidableEq

/-- Embedding of `PlayByPlay` (game_model.py:680-686): the ordered event
list (the raw `game`/`meta` header mappings are not read by any claim). -/
structure PlayByPlay where
  actions : List BaseEvent
deriving Repr, DecidableEq

/-- Embedding of `GameData` (game_model.py:689-717), restricted to the two
team aggregates the derived queries read. -/
structure GameData where
  home_team : TeamInGame
  away_team : TeamInGame
deriving Repr, DecidableEq

/-- Embedding of the root `Game` aggregate (game_model.py:724-728). -/
structure Game where
  game_data : GameData
  play_by_play : Option PlayByPlay := none
deriving Repr, DecidableEq

namespace Game

/-- The stored event sequence of a game (empty when the play-by-play is
absent). -/
def events (g : Game) : List BaseEvent :=
  match g.play_by_play with
  | none => []
  | some pbp => pbp.actions

/-- Embedding of `Game.get_team_stats` (game_model.py:794-800): home team
first, then away team, `none` on a miss. -/
def get_team_stats (g : Game) (team_id : Int) : Option TeamInGame :=
  if g.game_data.home_team.team_id = team_id then some g.game_data.home_team
  else if g.game_data.away_team.team_id = team_id then some g.game_data.away_team
  else none

/-- Embedding of `Game.get_player_stats` (game_model.py:803-815): scan the
home roster, then the away roster, `none` on a miss. -/
def get_player_stats (g : Game) (player_id : Int) : Option PlayerInGame :=
  match g.game_data.home_team.players.find? (fun p => p.person_id = player_id) with
  | some p => some p
  | none => g.game_data.away_team.players.find? (fun p => p.person_id = player_id)

/-- Embedding of `Game.filter_events` (game_model.py:819-841): empty when
the play-by-play is absent or empty, otherwise `filter_multi` followed by
the action-type membership filter, which Python's truthiness applies only
when `action_types` is a non-empty set. `none` is unreachable here
(`is_clutch` is `False`) but kept for a faithful `filter_multi` call. -/
def filter_events (g : Game) (period team_id player_id : Option Int)
    (action_types : Option (List String)) : Option (List BaseEvent) :=
  match g.play_by_play with
  | none => some []
  | some pbp =>
    if pbp.actions.isEmpty then some []
    else
      (BaseEvent.filter_multi pbp.actions team_id player_id period).map
        (fun filtered =>
          match action_types with
          | some ats =>
            if ats.isEmpty then filtered
            else filtered.filter (fun e => ats.contains e.action_type)
          | none => filtered)

end Game

/-- The projected record appended by `Game.get_assisted_shot_data`
(game_model.py:899-911). -/
structure AssistedShotRecord where
  x : Option Int
  y : Option Int
  shot_type : String
  shooter_id : Option Int
  shooter_name : Option String
  team_id : Option Int
  period : Int
  time : String
  description : String
  area : Option String
  distance : Option ℚ
deriving Repr, DecidableEq

/-- The field projection used for each kept event in
`get_assisted_shot_data`. -/
def assistedShotRecord (e : BaseEvent) : AssistedShotRecord :=
  { x := e.x_legacy, y := e.y_legacy, shot_type := e.action_type,
    shooter_id := e.person_id, shooter_name := e.player_name,
    team_id := e.team_id, period := e.period, time := e.clock,
    description := e.description, area := e.area,
    distance := e.shot_distance }

/-- The keep-condition of `get_assisted_shot_data`: a shot event
(action type `2pt` or `3pt`) whose assist reference equals the passer and
whose result is `"Made"`. -/
def assistedKeep (passer_id : Int) (e : BaseEvent) : Bool :=
  ["2pt", "3pt"].contains e.action_type &&
    e.assist_person_id = some passer_id && e.shot_result = some "Made"

/-- The event loop of `get_assisted_shot_data` (game_model.py:889-911):
skip non-shot events; keep shots assisted by the passer whose result is
made, projected by `assistedShotRecord`. -/
def assistedShotsLoop (passer_id : Int) : List BaseEvent → List AssistedShotRecord
  | [] => []
  | e :: rest =>
    if ["2pt", "3pt"].contains e.action_type then
      if e.assist_person_id = some passer_id ∧ e.shot_result = some "Made" then
        assistedShotRecord e :: assistedShotsLoop passer_id rest
      else assistedShotsLoop passer_id rest
    else assistedShotsLoop passer_id rest

/-- Embedding of `Game.get_assisted_shot_data` (game_model.py:878-913). -/
def Game.get_assisted_shot_data (g : Game) (passer_id : Int) :
    List AssistedShotRecord :=
  match g.play_by_play with
  | none => []
  | some pbp => assistedShotsLoop passer_id pbp.actions

/-! Claim-side predicates for C2, written from the spec's words. -/

/-- The action-type membership conjunct as the code applies it: a `None`
or empty set is a no-op, a non-empty set is a membership test. -/
def matchesActionTypes (ats : Option (List String)) (e : BaseEvent) : Bool :=
  match ats with
  | none => true
  | some l => if l.isEmpty then true else l.contains e.action_type

/-- The claim's conjunction of provided predicates over one event, with
the amendment that an empty provided `action_types` set is a no-op. -/
def eventConj (period team_id player_id : Option Int)
    (ats : Option (List String)) (e : BaseEvent) : Bool :=
  (match team_id with | none => true | some v => e.team_id = some v) &&
  (match player_id with | none => true | some v => e.person_id = some v) &&
  (match period with | none => true | some v => e.period = v) &&
  matchesActionTypes ats e

/-- The claim's conjunction read literally: a provided `action_types` set
is always a membership test, even when empty. -/
def eventConjLiteral (period team_id player_id : Option Int)
    (ats : Option (List String)) (e : BaseEvent) : Bool :=
  (match team_id with | none => true | some v => e.team_id = some v) &&
  (match player_id with | none => true | some v => e.person_id = some v) &&
  (match period with | none => true | some v => e.period = v) &&
  (match ats with | none => true | some l => l.contains e.action_type)

/-- The claim's clutch-time keep condition for C3: period at least 4 and
a colon-bearing clock whose integer minute component is at most the
threshold. -/
def claimedClutchKeep (minutes : Int) (e : BaseEvent) : Bool :=
  match pyInt? e.minutePart with
  | some m => decide (e.period ≥ 4) && containsColon e.clock && decide (m ≤ minutes)
  | none => false

/-! Duration parsing and the statistics validator (C6). -/

/-- Value of a list of decimal digits. -/
def natOfDigits (l : List Char) : Nat :=
  l.foldl (fun a c => a * 10 + (c.toNat - 48)) 0

/-- Seconds component of a duration body: empty, or `<digits>S`, or
`<digits>.<digits>S`, rounded half-up on the fraction; anything else is a
format error. -/
def parseSecondsPart (m : Nat) (r : List Char) : Except Unit Nat :=
  if r.isEmpty then .ok (m * 60)
  else
    match r.dropWhile Char.isDigit, r.takeWhile Char.isDigit with
    | _, [] => .error ()
    | ['S'], d2 => .ok (m * 60 + natOfDigits d2)
    | '.' :: r4, d2 =>
      match r4.dropWhile Char.isDigit, r4.takeWhile Char.isDigit with
      | ['S'], d3 =>
        .ok (m * 60 + natOfDigits d2 +
          (match d3 with
           | c :: _ => if 5 ≤ c.toNat - 48 then 1 else 0
           | [] => 0))
      | _, _ => .error ()
    | _, _ => .error ()

/-- Modelled from the spec: `TimeHandler.parse_duration`
(`utils/time_handler.py`, not under src). Parses `PT` + optional
`<int>M` + optional `<float>S` into whole seconds (fraction rounded
half-up); a missing `PT` or a malformed component is a format error
(`ValueError`), never a silent default. -/
def parse_duration (s : String) : Except Unit Nat :=
  match s.toList with
  | 'P' :: 'T' :: rest =>
    match rest.dropWhile Char.isDigit, rest.takeWhile Char.isDigit with
    | 'M' :: r2, d1 =>
      if d1.isEmpty then .error () else parseSecondsPart (natOfDigits d1) r2
    | _, _ => parseSecondsPart 0 rest
  | _ => .error ()

/-- Embedding of `PlayerStatistics` (game_model.py:140-221), restricted to
the duration-derived fields the claim reads. -/
structure PlayerStatistics where
  minutes : String := "PT00M00.00S"
  seconds_played : Nat := 0
  minutes_calculated : ℚ := 0
deriving Repr, DecidableEq

/-- Rounding to two decimal places (Python `round(x, 2)`; half-up in this
model, which only the successful-parse branch uses). -/
def round2 (x : ℚ) : ℚ :=
  (round (x * 100) : ℤ) / 100

/-- Embedding of the `calculate_seconds` model validator
(game_model.py:198-221): derive `seconds_played` and `minutes_calculated`
from the `minutes` duration string; a parse failure (`ValueError`) is
absorbed, setting both derived fields to zero, and construction always
succeeds. -/
def PlayerStatistics.calculate_seconds (minutes_str : String) : PlayerStatistics :=
  match parse_duration minutes_str with
  | .ok s =>
    { minutes := minutes_str, seconds_played := s,
      minutes_calculated := round2 ((s : ℚ) / 60) }
  | .error _ =>
    { minutes := minutes_str, seconds_played := 0, minutes_calculated := 0 }

/-! The player-name index (C8, C9), from `src/nba/parser/player_parser.py`. -/

/-- Python `dict[str, str]`: an association list with front insertion and
first-match lookup (a later assignment shadows an earlier one, as the
dict overwrite does). -/
abbrev StrDict := List (String × String)

/-- Embedding of `d.get(k)`. -/
def StrDict.get? (d : StrDict) (k : String) : Option String :=
  (d.find? (fun kv => kv.1 = k)).map (fun kv => kv.2)

/-- Embedding of `d[k] = v`. -/
def StrDict.insert (d : StrDict) (k v : String) : StrDict :=
  (k, v) :: d

/-- Embedding of `k in d`. -/
def StrDict.containsKey (d : StrDict) (k : String) : Bool :=
  (StrDict.get? d k).isSome

/-- Modelled from the spec: the identity fields of `PlayerBasicInfo`
(`nba/models/game_event_model.py`, not under src) that the name index
reads: id, full name, and the bare last name. -/
structure PlayerBasicInfo where
  person_id : String
  name : String
  last_name : String
deriving Repr, DecidableEq

/-- Split a character list at spaces (Python-style `split(' ')`, keeping
empty chunks for adjacent separators). -/
def splitOnSpaces : List Char → List (List Char)
  | [] => [[]]
  | c :: rest =>
    let r := splitOnSpaces rest
    if c = ' ' then [] :: r
    else (c :: r.headD []) :: r.tail

/-- Join words with single spaces. -/
def joinWords : List (List Char) → List Char
  | [] => []
  | [w] => w
  | w :: ws => w ++ ' ' :: joinWords ws

/-- Modelled from the spec: `PlayerBasicInfo.normalize_name`
(`nba/models/game_event_model.py`, not under src) collapses whitespace
runs to single spaces and preserves case. -/
def normalize_name (s : String) : String :=
  String.mk (joinWords ((splitOnSpaces s.toList).filter (fun w => ¬w.isEmpty)))

/-- Embedding of `PlayerNameMapping` (player_parser.py:8-63): the three
maps of the index. -/
structure PlayerNameMapping where
  name_to_id : StrDict := []
  id_to_name : StrDict := []
  normalized_name_to_id : StrDict := []
deriving Repr, DecidableEq

/-- The guarded last-name insertion of `add_player`
(player_parser.py:28-31): insert only when the key is not already
present. -/
def addLastName (d : StrDict) (k v : String) : StrDict :=
  if StrDict.containsKey d k then d else StrDict.insert d k v

namespace PlayerNameMapping

/-- Embedding of `PlayerNameMapping.add_player` (player_parser.py:17-35):
store the normalized full name in both directional maps, the lowercased
full name in the normalized map, then the guarded lowercase last-name
key. -/
def add_player (m : PlayerNameMapping) (player : PlayerBasicInfo) :
    PlayerNameMapping :=
  { name_to_id :=
      StrDict.insert m.name_to_id (normalize_name player.name) player.person_id,
    id_to_name :=
      StrDict.insert m.id_to_name player.person_id (normalize_name player.name),
    normalized_name_to_id :=
      addLastName
        (StrDict.insert m.normalized_name_to_id
          (lowerStr (normalize_name player.name)) player.person_id)
        (lowerStr player.last_name) player.person_id }

/-- Embedding of `PlayerNameMapping.get_player_id` (player_parser.py:37-48):
exact normalized lookup first (a falsy hit — the empty id string — falls
through, per Python truthiness), then the case-folded map; `none` on a
miss. -/
def get_player_id (m : PlayerNameMapping) (name : String) : Option String :=
  match StrDict.get? m.name_to_id (normalize_name name) with
  | some id =>
    if id ≠ "" then some id
    else StrDict.get? m.normalized_name_to_id (lowerStr (normalize_name name))
  | none => StrDict.get? m.normalized_name_to_id (lowerStr (normalize_name name))

/-- Embedding of `PlayerNameMapping.clear` (player_parser.py:58-63): reset
all three maps. -/
def clear (_m : PlayerNameMapping) : PlayerNameMapping :=
  { name_to_id := [], id_to_name := [], normalized_name_to_id := [] }

end PlayerNameMapping

/-! Concrete fixtures used by counterexamples and witnesses. -/

/-- A player whose raw name carries a doubled space. -/
def pLeBron : PlayerBasicInfo :=
  { person_id := "1", name := "LeBron  James", last_name := "James" }

/-- A single-word-named player whose lowercased full name coincides with
an existing last-name key. -/
def pJames : PlayerBasicInfo :=
  { person_id := "2", name := "James", last_name := "James" }

/-- A player with a distinct last name. -/
def pDavis : PlayerBasicInfo :=
  { person_id := "3", name := "Anthony Davis", last_name := "Davis" }

/-- A two-point shot event in period 1. -/
def evShot2pt : BaseEvent :=
  { action_number := 1, clock := "10:00", period := 1, action_type := "2pt",
    description := "jump shot", team_id := some 1, person_id := some 100,
    shot_result := some "Made" }

/-- A clutch-time event: period 4, clock "1:30". -/
def evClutch : BaseEvent :=
  { action_number := 2, clock := "1:30", period := 4, action_type := "steal",
    description := "steal", team_id := some 2, person_id := some 200 }

/-- A period-4 event whose clock has no colon. -/
def evNoColon : BaseEvent :=
  { action_number := 3, clock := "90", period := 4, action_type := "turnover",
    description := "turnover", team_id := some 1, person_id := some 100 }

/-- A missed shot credited with an assist reference. -/
def evMissedAssisted : BaseEvent :=
  { action_number := 4, clock := "5:00", period := 2, action_type := "3pt",
    description := "missed three", team_id := some 1, person_id := some 100,
    assist_person_id := some 7, shot_result := some "Missed" }

/-- A game holding exactly one two-point event. -/
def gOneShot : Game :=
  { game_data :=
      { home_team := { team_id := 1, players := [{ person_id := 100, name := "A" }] },
        away_team := { team_id := 2, players := [{ person_id := 200, name := "B" }] } },
    play_by_play := some { actions := [evShot2pt] } }

/-! Theorems. -/

theorem pyInt_empty : pyInt? "" = none := rfl

theorem clutchStep_some (e : BaseEvent) (c : Nat) (h : e.clutchStep = some c) :
    c = claimedClutch e := by
  unfold BaseEvent.clutchStep at h
  unfold claimedClutch
  by_cases hc : e.period ≥ 4 ∧ containsColon e.clock
  · rw [if_pos hc] at h
    rcases hm : pyInt? e.minutePart with _ | m <;> rw [hm] at h
    · simp at h
    · simp only [Option.map_some'] at h
      rw [Option.some.injEq] at h
      subst h
      simp [hc.1, hc.2]
  · rw [if_neg hc] at h
    rw [Option.some.injEq] at h
    subst h
    cases hm : pyInt? e.minutePart with
    | none => rfl
    | some m =>
      have hne : ¬(e.period ≥ 4 ∧ containsColon e.clock = true ∧ m ≤ 2) :=
        fun hcon => hc ⟨hcon.1, hcon.2.1⟩
      simp only [hm, if_neg hne]

theorem closeStep_some (e : BaseEvent) (c : Nat) (h : e.closeStep = some c) :
    c = claimedClose e := by
  unfold BaseEvent.closeStep at h
  unfold claimedClose
  by_cases ht : pyTruthy e.score_home ∧ pyTruthy e.score_away
  · rw [if_pos ht] at h
    rcases hsh : e.score_home with _ | sh
    · rw [hsh] at ht; simp [pyTruthy] at ht
    rcases hsa : e.score_away with _ | sa
    · rw [hsa] at ht; simp [pyTruthy] at ht
    rw [hsh, hsa] at h
    simp only [Option.getD_some] at h
    cases hh : pyInt? sh <;> cases ha : pyInt? sa <;> rw [hh, ha] at h <;>
      simp_all
  · rw [if_neg ht] at h
    rw [Option.some.injEq] at h
    subst h
    rcases hsh : e.score_home with _ | sh
    · rfl
    rcases hsa : e.score_away with _ | sa
    · rfl
    rw [hsh, hsa] at ht
    have hdisj : sh = "" ∨ sa = "" := by
      by_contra hcon
      push_neg at hcon
      exact ht (by simp [pyTruthy, hcon.1, hcon.2])
    rcases hdisj with h0 | h0 <;> subst h0
    · cases hpa : pyInt? sa <;> simp [pyInt_empty, hpa]
    · cases hps : pyInt? sh <;> simp [pyInt_empty, hps]

/-- C1: for every event on which `calculate_importance` evaluates (no
Python `ValueError`), the result equals min(5, base + clutch + close) per
the spec formula and lies in [0, 5]; the concrete three-point event at
period 4, clock "1:30", score margin 3 scores 5. -/
theorem claim_C1_calculate_importance :
    (∀ (e : BaseEvent) (r : Nat), e.calculate_importance = some r →
        r = min 5 (claimedBase e + claimedClutch e + claimedClose e) ∧ r ≤ 5)
    ∧ exThreePoint.calculate_importance = some 5 := by
  constructor
  · intro e r h
    unfold BaseEvent.calculate_importance at h
    rcases h1 : e.clutchStep with _ | c1 <;> rw [h1] at h
    · simp at h
    rcases h2 : e.closeStep with _ | c2 <;> rw [h2] at h
    · simp at h
    rw [Option.some.injEq] at h
    subst h
    have hb : claimedBase e = e.baseImportance := rfl
    rw [clutchStep_some e c1 h1, closeStep_some e c2 h2] at *
    constructor
    · rw [Nat.min_comm, hb]
    · exact Nat.min_le_right _ 5
  · rfl

theorem claim_C1_calculate_importance_witness :
    (5 : Nat) = min 5 (claimedBase exThreePoint + claimedClutch exThreePoint +
      claimedClose exThreePoint) ∧ (5 : Nat) ≤ 5 :=
  claim_C1_calculate_importance.1 exThreePoint 5 claim_C1_calculate_importance.2

/-- With `is_clutch = False`, `filter_multi` is the conjunctive filter of
its provided predicates and never fails. -/
theorem filter_multi_no_clutch (evs : List BaseEvent) (t p q : Option Int) (m : Int) :
    BaseEvent.filter_multi evs t p q false m =
      some (evs.filter (fun e => eventConj q t p none e)) := by
  rcases t with _ | tv <;> rcases p with _ | pv <;> rcases q with _ | qv <;>
    simp only [BaseEvent.filter_multi, BaseEvent.filter_by_team,
      BaseEvent.filter_by_player, BaseEvent.filter_by_period, List.filter_filter,
      Bool.false_eq_true, if_false, Option.some.injEq]
  all_goals
    first
      | exact ((List.filter_congr fun e _ => by
            simp [eventConj, matchesActionTypes]).trans (List.filter_true evs)).symm
      | exact List.filter_congr fun e _ => by
          simp [eventConj, matchesActionTypes, Bool.and_comm, Bool.and_left_comm,
            Bool.and_assoc]

/-- C2 counterexample: with a provided empty `action_types` set the code
returns the unfiltered event, while the claim's literal conjunction
(membership in the empty set) keeps no event. -/
theorem claim_C2_counterexample :
    gOneShot.filter_events none none none (some []) = some [evShot2pt]
    ∧ [evShot2pt].filter (eventConjLiteral none none none (some [])) = [] :=
  ⟨rfl, rfl⟩

/-- C2 (amended): for every game whose play-by-play is present,
`filter_events` returns exactly the stored events satisfying the
conjunction of the provided predicates in their original order — with an
empty provided `action_types` set acting as an absent predicate — and
with no predicate provided it returns the full stored sequence. -/
theorem claim_C2_filter_events (g : Game) (pbp : PlayByPlay)
    (hp : g.play_by_play = some pbp) (per t pl : Option Int)
    (ats : Option (List String)) :
    g.filter_events per t pl ats =
      some (pbp.actions.filter (eventConj per t pl ats))
    ∧ g.filter_events none none none none = some pbp.actions := by
  have main : ∀ (per t pl : Option Int) (ats : Option (List String)),
      g.filter_events per t pl ats =
        some (pbp.actions.filter (eventConj per t pl ats)) := by
    intro per t pl ats
    simp only [Game.filter_events, hp]
    by_cases he : pbp.actions.isEmpty
    · rw [if_pos he, List.isEmpty_iff.mp he]
      cases ats with
      | none => rfl
      | some l => cases l <;> rfl
    · rw [if_neg he, filter_multi_no_clutch, Option.map_some']
      cases ats with
      | none => rfl
      | some l =>
        by_cases hl : l.isEmpty
        · simp only [hl, if_true, Option.some.injEq]
          refine List.filter_congr fun e _ => ?_
          simp [eventConj, matchesActionTypes, hl]
        · simp only [hl, if_false, List.filter_filter, Option.some.injEq]
          refine List.filter_congr fun e _ => ?_
          simp [eventConj, matchesActionTypes, hl, Bool.and_comm,
            Bool.and_left_comm, Bool.and_assoc]
  refine ⟨main per t pl ats, ?_⟩
  rw [main none none none none]
  simp [eventConj, matchesActionTypes]

theorem claim_C2_filter_events_witness :
    gOneShot.filter_events (some 1) none none none =
      some ([evShot2pt].filter (eventConj (some 1) none none none))
    ∧ gOneShot.filter_events none none none none = some [evShot2pt] :=
  claim_C2_filter_events gOneShot { actions := [evShot2pt] } rfl
    (some 1) none none none

/-- C10: an empty provided `action_types` set behaves exactly like an
absent one in `filter_events`: no action-type filtering is applied. -/
theorem claim_C10_empty_action_types (g : Game) (per t pl : Option Int) :
    g.filter_events per t pl (some []) = g.filter_events per t pl none := by
  unfold Game.filter_events
  cases g.play_by_play <;> rfl

/-- C7: sequential composition of two single-predicate filters (either
order) equals one `filter_multi` call with both predicates set, for each
pair among team id, player id and period. -/
theorem claim_C7_filter_composition (evs : List BaseEvent) (t p q : Int) :
    (BaseEvent.filter_multi evs (some t) (some p) none false 2 =
        some (BaseEvent.filter_by_player (BaseEvent.filter_by_team evs t) p)
      ∧ BaseEvent.filter_multi evs (some t) (some p) none false 2 =
        some (BaseEvent.filter_by_team (BaseEvent.filter_by_player evs p) t))
    ∧ (BaseEvent.filter_multi evs (some t) none (some q) false 2 =
        some (BaseEvent.filter_by_period (BaseEvent.filter_by_team evs t) q)
      ∧ BaseEvent.filter_multi evs (some t) none (some q) false 2 =
        some (BaseEvent.filter_by_team (BaseEvent.filter_by_period evs q) t))
    ∧ (BaseEvent.filter_multi evs none (some p) (some q) false 2 =
        some (BaseEvent.filter_by_period (BaseEvent.filter_by_player evs p) q)
      ∧ BaseEvent.filter_multi evs none (some p) (some q) false 2 =
        some (BaseEvent.filter_by_player (BaseEvent.filter_by_period evs q) p)) := by
  have swap1 : BaseEvent.filter_by_player (BaseEvent.filter_by_team evs t) p
      = BaseEvent.filter_by_team (BaseEvent.filter_by_player evs p) t := by
    unfold BaseEvent.filter_by_player BaseEvent.filter_by_team
    exact List.filter_comm _ _ _
  have swap2 : BaseEvent.filter_by_period (BaseEvent.filter_by_team evs t) q
      = BaseEvent.filter_by_team (BaseEvent.filter_by_period evs q) t := by
    unfold BaseEvent.filter_by_period BaseEvent.filter_by_team
    exact List.filter_comm _ _ _
  have swap3 : BaseEvent.filter_by_period (BaseEvent.filter_by_player evs p) q
      = BaseEvent.filter_by_player (BaseEvent.filter_by_period evs q) p := by
    unfold BaseEvent.filter_by_period BaseEvent.filter_by_player
    exact List.filter_comm _ _ _
  exact ⟨⟨rfl, Eq.trans rfl (congrArg some swap1)⟩,
    ⟨rfl, Eq.trans rfl (congrArg some swap2)⟩,
    ⟨rfl, Eq.trans rfl (congrArg some swap3)⟩⟩

/-- C3: when every period-4-or-later event with a colon-bearing clock has
a convertible minute component, the clutch-time filter evaluates without
error and keeps exactly the events satisfying the clutch condition; an
event without a colon is excluded rather than raising. -/
theorem claim_C3_clutch_time (events : List BaseEvent) (m : Int)
    (h : ∀ e ∈ events, e.period ≥ 4 → containsColon e.clock = true →
      (pyInt? e.minutePart).isSome) :
    BaseEvent.filter_by_clutch_time events m =
      some (events.filter (claimedClutchKeep m)) := by
  induction events with
  | nil => rfl
  | cons e rest ih =>
    have hrest := ih (fun x hx h4 hc => h x (List.mem_cons_of_mem e hx) h4 hc)
    rw [List.filter_cons]
    unfold BaseEvent.filter_by_clutch_time
    by_cases hc : e.period ≥ 4 ∧ containsColon e.clock = true
    · obtain ⟨v, hv⟩ :=
        Option.isSome_iff_exists.mp (h e (List.mem_cons_self e rest) hc.1 hc.2)
      have hct : BaseEvent.clutchTest m e = some (decide (v ≤ m)) := by
        unfold BaseEvent.clutchTest
        rw [if_pos hc, hv]
        rfl
      have hkeep : claimedClutchKeep m e = decide (v ≤ m) := by
        unfold claimedClutchKeep
        rw [hv]
        simp [hc.1, hc.2]
      rw [hct, hrest, hkeep]
      simp only [Option.map_some']
    · have hct : BaseEvent.clutchTest m e = some false := by
        unfold BaseEvent.clutchTest
        rw [if_neg hc]
      have hkeep : claimedClutchKeep m e = false := by
        unfold claimedClutchKeep
        cases hv : pyInt? e.minutePart with
        | none => rfl
        | some v =>
          rcases not_and_or.mp hc with h4 | hcl
          · simp [h4]
          · simp [hcl]
      rw [hct, hrest, hkeep]
      simp only [Option.map_some']

theorem claim_C3_clutch_time_witness :
    BaseEvent.filter_by_clutch_time [evClutch, evNoColon, evShot2pt] 2 =
      some ([evClutch, evNoColon, evShot2pt].filter (claimedClutchKeep 2)) :=
  claim_C3_clutch_time [evClutch, evNoColon, evShot2pt] 2 (by decide)

/-- The event loop of `get_assisted_shot_data` is the filter by
`assistedKeep` followed by the record projection. -/
theorem assistedShotsLoop_eq (pid : Int) (l : List BaseEvent) :
    assistedShotsLoop pid l = (l.filter (assistedKeep pid)).map assistedShotRecord := by
  induction l with
  | nil => rfl
  | cons e rest ih =>
    unfold assistedShotsLoop
    rw [List.filter_cons]
    by_cases hA : ["2pt", "3pt"].contains e.action_type
    · rw [if_pos hA]
      by_cases hBC : e.assist_person_id = some pid ∧ e.shot_result = some "Made"
      · rw [if_pos hBC]
        have hk : assistedKeep pid e = true := by
          have hA2 : e.action_type = "2pt" ∨ e.action_type = "3pt" := by
            simpa using hA
          rcases hA2 with h2 | h2 <;> simp [assistedKeep, h2, hBC.1, hBC.2]
        rw [ih]
        simp [hk]
      · rw [if_neg hBC]
        have hk : assistedKeep pid e = false := by
          rcases not_and_or.mp hBC with hB | hC
          · simp [assistedKeep, hB]
          · simp [assistedKeep, hC]
        rw [ih]
        simp [hk]
    · rw [if_neg hA]
      have hk : assistedKeep pid e = false := by
        have hA2 : ¬(e.action_type = "2pt" ∨ e.action_type = "3pt") := by
          simpa using hA
        simp [assistedKeep, hA2]
      rw [ih]
      simp [hk]

/-- C4: `get_assisted_shot_data` returns exactly the projections of the
shot events (2pt/3pt) whose assist reference equals the passer and whose
result is made; a missed shot never satisfies the keep condition, even
with a matching assist reference. -/
theorem claim_C4_assisted_shot_data (g : Game) (pid : Int) :
    g.get_assisted_shot_data pid =
      (g.events.filter (assistedKeep pid)).map assistedShotRecord
    ∧ (∀ e : BaseEvent, e.shot_result = some "Missed" → assistedKeep pid e = false) := by
  constructor
  · unfold Game.get_assisted_shot_data Game.events
    cases g.play_by_play
    · rfl
    · exact assistedShotsLoop_eq pid _
  · intro e hm
    simp [assistedKeep, hm]

theorem claim_C4_assisted_shot_data_witness :
    assistedKeep 7 evMissedAssisted = false :=
  (claim_C4_assisted_shot_data gOneShot 7).2 evMissedAssisted rfl

/-- C5: team and player statistics lookups return `none` exactly on a
miss and the matching aggregate on a hit, never an exception (the
functions are total). -/
theorem claim_C5_lookups (g : Game) (tid pid : Int) :
    (g.game_data.home_team.team_id ≠ tid → g.game_data.away_team.team_id ≠ tid →
      g.get_team_stats tid = none)
    ∧ (∀ tm, g.get_team_stats tid = some tm → tm.team_id = tid ∧
        (tm = g.game_data.home_team ∨ tm = g.game_data.away_team))
    ∧ ((∀ p ∈ g.game_data.home_team.players ++ g.game_data.away_team.players,
        p.person_id ≠ pid) → g.get_player_stats pid = none)
    ∧ (∀ p, g.get_player_stats pid = some p → p.person_id = pid ∧
        p ∈ g.game_data.home_team.players ++ g.game_data.away_team.players) := by
  refine ⟨?_, ?_, ?_, ?_⟩
  · intro h1 h2
    unfold Game.get_team_stats
    rw [if_neg h1, if_neg h2]
  · intro tm h
    unfold Game.get_team_stats at h
    by_cases h1 : g.game_data.home_team.team_id = tid
    · rw [if_pos h1, Option.some.injEq] at h
      subst h
      exact ⟨h1, Or.inl rfl⟩
    · rw [if_neg h1] at h
      by_cases h2 : g.game_data.away_team.team_id = tid
      · rw [if_pos h2, Option.some.injEq] at h
        subst h
        exact ⟨h2, Or.inr rfl⟩
      · rw [if_neg h2] at h
        exact absurd h (by simp)
  · intro hmiss
    unfold Game.get_player_stats
    have hh : g.game_data.home_team.players.find?
        (fun p => p.person_id = pid) = none := by
      rw [List.find?_eq_none]
      intro x hx
      simp [hmiss x (List.mem_append_left _ hx)]
    have ha : g.game_data.away_team.players.find?
        (fun p => p.person_id = pid) = none := by
      rw [List.find?_eq_none]
      intro x hx
      simp [hmiss x (List.mem_append_right _ hx)]
    rw [hh, ha]
  · intro p h
    unfold Game.get_player_stats at h
    cases hh : g.game_data.home_team.players.find? (fun q => q.person_id = pid) with
    | some q =>
      rw [hh, Option.some.injEq] at h
      subst h
      refine ⟨by simpa using List.find?_some hh,
        List.mem_append_left _ (List.mem_of_find?_eq_some hh)⟩
    | none =>
      rw [hh] at h
      refine ⟨by simpa using List.find?_some h,
        List.mem_append_right _ (List.mem_of_find?_eq_some h)⟩

theorem claim_C5_lookups_witness :
    gOneShot.get_team_stats 3 = none ∧ gOneShot.get_player_stats 999 = none :=
  ⟨(claim_C5_lookups gOneShot 3 999).1 (by decide) (by decide),
   (claim_C5_lookups gOneShot 3 999).2.2.1 (by decide)⟩

/-- C6: when the minutes duration string fails to parse, the statistics
record is still constructed — the failure is absorbed, `seconds_played`
is 0 and `minutes_calculated` is 0. -/
theorem claim_C6_duration_degrades (s : String)
    (h : parse_duration s = .error ()) :
    PlayerStatistics.calculate_seconds s =
      { minutes := s, seconds_played := 0, minutes_calculated := 0 } := by
  unfold PlayerStatistics.calculate_seconds
  rw [h]

theorem claim_C6_duration_degrades_witness :
    PlayerStatistics.calculate_seconds "12:34" =
      { minutes := "12:34", seconds_played := 0, minutes_calculated := 0 } :=
  claim_C6_duration_degrades "12:34" rfl

/-- Inserted key looks itself up. -/
theorem StrDict.get?_insert_self (d : StrDict) (k v : String) :
    StrDict.get? (StrDict.insert d k v) k = some v := by
  simp [StrDict.get?, StrDict.insert, List.find?]

/-- Inserting under a different key leaves a lookup unchanged. -/
theorem StrDict.get?_insert_ne (d : StrDict) (k v k2 : String) (h : k2 ≠ k) :
    StrDict.get? (StrDict.insert d k v) k2 = StrDict.get? d k2 := by
  simp only [StrDict.get?, StrDict.insert, List.find?]
  rw [decide_eq_false (fun hk => h hk.symm)]

/-- After `add_player`, the lowercased-full-name key resolves to the
player's id in the normalized map. -/
theorem add_player_normalized_full (m : PlayerNameMapping) (p : PlayerBasicInfo) :
    StrDict.get? (m.add_player p).normalized_name_to_id
      (lowerStr (normalize_name p.name)) = some p.person_id := by
  show StrDict.get?
    (addLastName
      (StrDict.insert m.normalized_name_to_id
        (lowerStr (normalize_name p.name)) p.person_id)
      (lowerStr p.last_name) p.person_id)
    (lowerStr (normalize_name p.name)) = some p.person_id
  unfold addLastName
  by_cases hc : StrDict.containsKey
      (StrDict.insert m.normalized_name_to_id
        (lowerStr (normalize_name p.name)) p.person_id)
      (lowerStr p.last_name)
  · rw [if_pos hc]
    exact StrDict.get?_insert_self _ _ _
  · rw [if_neg hc]
    have hne : lowerStr (normalize_name p.name) ≠ lowerStr p.last_name := by
      intro heq
      apply hc
      rw [← heq]
      simp [StrDict.containsKey, StrDict.get?_insert_self]
    rw [StrDict.get?_insert_ne _ _ _ _ hne]
    exact StrDict.get?_insert_self _ _ _

/-- C8: after `add_player(p)`, `get_player_id` on any spelling that
normalizes to p's normalized full name returns p's id; after `clear()`
the lookup returns `none`; and `get_player_id` tries the exact
normalized-name map first, falling back to the case-folded map, total on
a miss. -/
theorem claim_C8_name_index (m : PlayerNameMapping) (p : PlayerBasicInfo)
    (name : String) :
    (∀ n, normalize_name n = normalize_name p.name →
      (m.add_player p).get_player_id n = some p.person_id)
    ∧ (m.clear).get_player_id name = none
    ∧ (∀ id, StrDict.get? m.name_to_id (normalize_name name) = some id →
        id ≠ "" → m.get_player_id name = some id)
    ∧ (StrDict.get? m.name_to_id (normalize_name name) = none →
        m.get_player_id name =
          StrDict.get? m.normalized_name_to_id (lowerStr (normalize_name name))) := by
  refine ⟨?_, rfl, ?_, ?_⟩
  · intro n hn
    have h1 : StrDict.get? (m.add_player p).name_to_id (normalize_name n) =
        some p.person_id := by
      rw [hn]
      exact StrDict.get?_insert_self _ _ _
    unfold PlayerNameMapping.get_player_id
    simp only [h1]
    by_cases hid : p.person_id = ""
    · rw [if_neg (by simpa using hid), hn]
      exact add_player_normalized_full m p
    · rw [if_pos (by simpa using hid)]
  · intro id hid hne
    unfold PlayerNameMapping.get_player_id
    simp only [hid]
    rw [if_pos (by simpa using hne)]
  · intro hmiss
    unfold PlayerNameMapping.get_player_id
    simp only [hmiss]

theorem claim_C8_name_index_witness :
    ((({} : PlayerNameMapping).add_player pLeBron).get_player_id "LeBron  James" =
      some "1")
    ∧ ((PlayerNameMapping.clear
        (({} : PlayerNameMapping).add_player pLeBron)).get_player_id
          "LeBron James" = none)
    ∧ ((({} : PlayerNameMapping).add_player pLeBron).get_player_id
        "LeBron  James" = some "1")
    ∧ ((PlayerNameMapping.clear {}).get_player_id "Stephen Curry" =
        StrDict.get? (PlayerNameMapping.clear {}).normalized_name_to_id
          (lowerStr (normalize_name "Stephen Curry"))) :=
  ⟨(claim_C8_name_index {} pLeBron "z").1 "LeBron  James" rfl,
   (claim_C8_name_index (({} : PlayerNameMapping).add_player pLeBron) pLeBron
      "LeBron James").2.1,
   (claim_C8_name_index (({} : PlayerNameMapping).add_player pLeBron) pLeBron
      "LeBron  James").2.2.1 "1" rfl (by decide),
   (claim_C8_name_index (PlayerNameMapping.clear {}) pLeBron
      "Stephen Curry").2.2.2 rfl⟩

/-- C9 counterexample: after indexing "LeBron  James" (id 1), whose
last-name key "james" is present, adding the different player "James"
(id 2, same lowercase last name) overwrites that key through the
unconditional lowercased-full-name insertion. -/
theorem claim_C9_counterexample :
    StrDict.get? ((({} : PlayerNameMapping).add_player pLeBron).normalized_name_to_id)
      "james" = some "1"
    ∧ StrDict.get?
        (((({} : PlayerNameMapping).add_player pLeBron).add_player pJames).normalized_name_to_id)
        "james" = some "2" :=
  ⟨rfl, rfl⟩

/-- C9 (amended): a present lowercase last-name key survives a later
`add_player` provided the later player's lowercased normalized full name
is not that key itself; the guarded last-name insertion never overwrites
it. -/
theorem claim_C9_last_name_first_writer (m : PlayerNameMapping)
    (p : PlayerBasicInfo) (k v : String)
    (hk : StrDict.get? m.normalized_name_to_id k = some v)
    (hne : lowerStr (normalize_name p.name) ≠ k) :
    StrDict.get? (m.add_player p).normalized_name_to_id k = some v := by
  show StrDict.get?
    (addLastName
      (StrDict.insert m.normalized_name_to_id
        (lowerStr (normalize_name p.name)) p.person_id)
      (lowerStr p.last_name) p.person_id) k = some v
  have h1 : StrDict.get?
      (StrDict.insert m.normalized_name_to_id
        (lowerStr (normalize_name p.name)) p.person_id) k = some v := by
    rw [StrDict.get?_insert_ne _ _ _ _ (fun h => hne h.symm)]
    exact hk
  unfold addLastName
  by_cases hc : StrDict.containsKey
      (StrDict.insert m.normalized_name_to_id
        (lowerStr (normalize_name p.name)) p.person_id)
      (lowerStr p.last_name)
  · rw [if_pos hc]
    exact h1
  · rw [if_neg hc]
    have hne2 : k ≠ lowerStr p.last_name := by
      intro heq
      apply hc
      rw [← heq]
      simp [StrDict.containsKey, h1]
    rw [StrDict.get?_insert_ne _ _ _ _ hne2]
    exact h1

theorem claim_C9_last_name_first_writer_witness :
    StrDict.get?
      (((({} : PlayerNameMapping).add_player pLeBron).add_player pDavis).normalized_name_to_id)
      "james" = some "1" :=
  claim_C9_last_name_first_writer (({} : PlayerNameMapping).add_player pLeBron)
    pDavis "james" "1" rfl (by decide)

end LebronBot
